import Mathlib

/-!
Verification of the scattered-point-to-regular-grid interpolation engine
specified for this repository.  The repository ships only the test suite of
the engine (src/autotest/utilities/test_gdal_grid_lib.py); the engine itself
is an external native library.  Following the specification (spec.md
sections 3, 4.1-4.5), the data model, search-window engine, aggregator
library and grid driver are modelled here as executable Lean definitions
over exact rational/real arithmetic.  Rotation of the search ellipse is
represented by the cosine and sine of its angle (exact for the right-angle
cases the tests exercise).
-/

namespace GdalGrid

/-- Modelled from the spec: an input point, immutable (x, y, z).
The engine's point type (spec section 3), decoded from vector features. -/
structure GPoint where
  x : ℚ
  y : ℚ
  z : ℚ
deriving DecidableEq

/-- Modelled from the spec: the search-window configuration (spec sections
3 and 6): search ellipse radii (`none` = not given; a missing radius
defaults to 0, and zero radii mean an unbounded search, so there is no
unset-versus-zero distinction in the configuration surface), rotation
given by the cosine/sine of the angle, and the global/per-quadrant
point-count bounds (0 = unset/unconstrained, matching the
string-configuration encoding where `max_points=0` means no limit). -/
structure SearchParams where
  radius1 : Option ℚ
  radius2 : Option ℚ
  cosAngle : ℚ
  sinAngle : ℚ
  minPoints : ℕ
  maxPoints : ℕ
  minPointsPerQuadrant : ℕ
  maxPointsPerQuadrant : ℕ
deriving DecidableEq

/-- A candidate point, as the search-window engine hands it to an
aggregator: its quadrant in the ellipse's local frame, its squared
Euclidean distance to the grid node, and its value. -/
structure Cand where
  quad : ℕ
  sq : ℚ
  z : ℚ
deriving DecidableEq

/-- Squared Euclidean distance from the grid node (qx, qy) to a point. -/
def sqDistTo (qx qy : ℚ) (p : GPoint) : ℚ :=
  (p.x - qx) ^ 2 + (p.y - qy) ^ 2

/-- Modelled from the spec (section 4.3 step 1): offset of a point from the
grid node, rotated by minus the ellipse angle into the ellipse's local
frame. -/
def localOffset (sp : SearchParams) (qx qy : ℚ) (p : GPoint) : ℚ × ℚ :=
  let dx := p.x - qx
  let dy := p.y - qy
  (dx * sp.cosAngle + dy * sp.sinAngle, -dx * sp.sinAngle + dy * sp.cosAngle)

/-- Modelled from the spec (section 4.3 step 2): the quadrant of a point is
determined by the signs of its local-frame offset along the ellipse's own
axes. -/
def quadrantOf (lx ly : ℚ) : ℕ :=
  (if lx < 0 then 1 else 0) + (if ly < 0 then 2 else 0)

/-- Modelled from the spec (section 4.3): a point is inside the search
neighborhood iff its local-frame offset, scaled by (1/radius1, 1/radius2),
has squared norm at most 1, written in the division-free form
`r2²·lx² + r1²·ly² ≤ r1²·r2²` (equivalent for positive radii, see
`inEllipse_iff_scaled`).  An unset radius defaults to 0, and zero radii
make the comparison `0 ≤ 0`: the search is then unbounded, as
test_gdal_grid_lib_1 requires of an explicit radius1=0.0, radius2=0.0
configuration (nearest-neighbor over the whole point array). -/
def inEllipse (sp : SearchParams) (qx qy : ℚ) (p : GPoint) : Bool :=
  let r1 := sp.radius1.getD 0
  let r2 := sp.radius2.getD 0
  let lo := localOffset sp qx qy p
  decide (r2 ^ 2 * lo.1 ^ 2 + r1 ^ 2 * lo.2 ^ 2 ≤ r1 ^ 2 * r2 ^ 2)

/-- Build the candidate record for an included point. -/
def mkCand (sp : SearchParams) (qx qy : ℚ) (p : GPoint) : Cand :=
  let lo := localOffset sp qx qy p
  ⟨quadrantOf lo.1 lo.2, sqDistTo qx qy p, p.z⟩

/-- Insert a candidate into a list sorted by increasing squared distance. -/
def insertBySq (c : Cand) : List Cand → List Cand
  | [] => [c]
  | d :: l => if c.sq ≤ d.sq then c :: d :: l else d :: insertBySq c l

/-- Sort candidates by increasing squared distance (insertion sort); the
spec orders points nearest-first when trimming (section 4.3 step 3). -/
def sortBySq : List Cand → List Cand
  | [] => []
  | c :: l => insertBySq c (sortBySq l)

/-- The candidates of quadrant q, nearest-first, truncated to m. -/
def quadTake (m : ℕ) (l : List Cand) (q : ℕ) : List Cand :=
  (sortBySq (l.filter (fun c => c.quad == q))).take m

/-- Modelled from the spec (section 4.3 step 3): once a quadrant holds
max_points_per_quadrant points, further (farther) points of that quadrant
are excluded, nearest-first; 0 means unconstrained. -/
def trimPerQuadrant (m : ℕ) (l : List Cand) : List Cand :=
  if m = 0 then l
  else quadTake m l 0 ++ quadTake m l 1 ++ quadTake m l 2 ++ quadTake m l 3

/-- Modelled from the spec (section 4.3 step 3): the global max_points
bound is applied across the whole candidate set after quadrant trimming,
nearest-first; 0 means unconstrained. -/
def trimGlobal (m : ℕ) (l : List Cand) : List Cand :=
  if m = 0 then l else (sortBySq l).take m

/-- Number of trimmed candidates lying in quadrant q. -/
def quadCount (l : List Cand) (q : ℕ) : ℕ :=
  (l.filter (fun c => c.quad == q)).length

/-- Modelled from the spec (section 4.3 step 4): after trimming, the node
has data only if the global minimum and every per-quadrant minimum are
met. -/
def sufficient (sp : SearchParams) (l : List Cand) : Bool :=
  decide (sp.minPoints ≤ l.length) &&
  (decide (sp.minPointsPerQuadrant = 0) ||
    (decide (sp.minPointsPerQuadrant ≤ quadCount l 0) &&
     decide (sp.minPointsPerQuadrant ≤ quadCount l 1) &&
     decide (sp.minPointsPerQuadrant ≤ quadCount l 2) &&
     decide (sp.minPointsPerQuadrant ≤ quadCount l 3)))

/-- Modelled from the spec (section 4.3): the candidate set of a grid node:
ellipse filtering, then per-quadrant trimming, then the global cap. -/
def selectCandidates (sp : SearchParams) (pts : List GPoint) (qx qy : ℚ) :
    List Cand :=
  trimGlobal sp.maxPoints
    (trimPerQuadrant sp.maxPointsPerQuadrant
      ((pts.filter (fun p => inEllipse sp qx qy p)).map (mkCand sp qx qy)))

/-- Modelled from the spec (section 4.4): the aggregator kinds the claims
concern.  The `linear` aggregator is outside this model (it needs the
triangulation collaborator and is excluded by the claims themselves). -/
inductive GridAlg where
  | average
  | minimum
  | maximum
  | range
  | count
  | averageDistance
  | invdist (power smoothing : ℝ)

/-- Minimum of the candidate values (0 on an empty list; the driver never
aggregates an empty list). -/
def candMin : List Cand → ℚ
  | [] => 0
  | c :: t => t.foldl (fun m d => min m d.z) c.z

/-- Maximum of the candidate values (0 on an empty list). -/
def candMax : List Cand → ℚ
  | [] => 0
  | c :: t => t.foldl (fun m d => max m d.z) c.z

/-- The value of the first candidate exactly at the query location, if
any: the inverse-distance aggregator short-circuits to it (spec section
4.4). -/
def zeroDistZ : List Cand → Option ℚ
  | [] => none
  | c :: t => if c.sq = 0 then some c.z else zeroDistZ t

/-- Modelled from the spec (section 4.4): inverse-distance weighting,
`(sum of value/dist^power) / (sum of 1/dist^power)` with the smoothing
parameter entering the distance term as `sqrt(dist^2 + smoothing)`; a
point exactly at the query location short-circuits to its value. -/
noncomputable def aggInvdist (power smoothing : ℝ) (l : List Cand) : ℝ :=
  match zeroDistZ l with
  | some z => (z : ℝ)
  | none =>
    ((l.map (fun c => (c.z : ℝ) / Real.sqrt ((c.sq : ℝ) + smoothing) ^ power)).sum) /
    ((l.map (fun c => 1 / Real.sqrt ((c.sq : ℝ) + smoothing) ^ power)).sum)

/-- Modelled from the spec (section 4.4): apply an aggregator to the
candidate set.  Reductions are exact (the spec performs them in double
precision; the claims' concrete expectations are stated up to rounding). -/
noncomputable def applyAgg : GridAlg → List Cand → ℝ
  | .average, l => ((l.map (fun c => (c.z : ℝ))).sum) / (l.length : ℝ)
  | .minimum, l => (candMin l : ℝ)
  | .maximum, l => (candMax l : ℝ)
  | .range, l => (candMax l : ℝ) - (candMin l : ℝ)
  | .count, l => (l.length : ℝ)
  | .averageDistance, l => ((l.map (fun c => Real.sqrt (c.sq : ℝ))).sum) / (l.length : ℝ)
  | .invdist p s, l => aggInvdist p s l

/-- Modelled from the spec (sections 4.3 step 4, 4.4, 4.5): the output of
one grid node: the nodata sentinel 0 when the trimmed candidate set is
empty or insufficient, the aggregate otherwise. -/
noncomputable def gridNodeValue (alg : GridAlg) (sp : SearchParams)
    (pts : List GPoint) (qx qy : ℚ) : ℝ :=
  if (selectCandidates sp pts qx qy).isEmpty then 0
  else if sufficient sp (selectCandidates sp pts qx qy) then
    applyAgg alg (selectCandidates sp pts qx qy)
  else 0

/-- World x-coordinate of the node in column i (pixel-center convention of
the output affine transform). -/
def nodeX (xmin xmax : ℚ) (w : ℕ) (i : ℕ) : ℚ :=
  xmin + ((i : ℚ) + 1/2) * (xmax - xmin) / (w : ℚ)

/-- World y-coordinate of the node in row j (top row first). -/
def nodeY (ymin ymax : ℚ) (h : ℕ) (j : ℕ) : ℚ :=
  ymax - ((j : ℚ) + 1/2) * (ymax - ymin) / (h : ℚ)

/-- Modelled from the spec (section 4.5): the grid driver's row-major scan:
every node's value is computed from the fixed point set and the node's own
world coordinate. -/
noncomputable def gridRaster (alg : GridAlg) (sp : SearchParams)
    (pts : List GPoint) (xmin ymin xmax ymax : ℚ) (w h : ℕ) :
    List (List ℝ) :=
  (List.range h).map (fun j =>
    (List.range w).map (fun i =>
      gridNodeValue alg sp pts (nodeX xmin xmax w i) (nodeY ymin ymax h j)))

/-- Modelled from the spec (section 4.1): one input record of the point
source adapter: a 2D location, an optional value for the designated field,
and whether that value is finite (the spec's non-finite/NaN case, which ℚ
cannot represent directly). -/
structure SourceRecord where
  x : ℚ
  y : ℚ
  zField : Option ℚ
  zFinite : Bool
deriving DecidableEq

/-- Modelled from the spec (section 4.1): a record missing the designated
value field, or whose value is non-finite, yields no point. -/
def recordPoint (r : SourceRecord) : Option GPoint :=
  match r.zField with
  | none => none
  | some z => if r.zFinite then some ⟨r.x, r.y, z⟩ else none

/-- Modelled from the spec (section 4.1): the point source adapter keeps
exactly the records with a finite, present value, silently dropping the
rest. -/
def adaptPoints (rs : List SourceRecord) : List GPoint :=
  rs.filterMap recordPoint

/-- Modelled from the spec (sections 6 and 7): the input collaborator's
schema, as far as configuration validation needs it. -/
structure DataSource where
  layerNames : List String
  fieldNames : List String

/-- Modelled from the spec (section 7): the configuration-error taxonomy
surfaced by the grid operation, identifying the offending value. -/
inductive ConfigError where
  | unknownLayer (nm : String)
  | unknownField (nm : String)
  | sqlParseError (stmt : String)
deriving DecidableEq

/-- Modelled from the spec (section 6): the layer/filter selection part of
the configuration: an optional layer name, an optional field referenced by
the where clause, and an optional SQL statement. -/
structure QueryConfig where
  layer : Option String
  whereField : Option String
  sqlStatement : Option String

/-- Check the SQL statement, given the collaborator's parser. -/
def validateSql (sqlOk : String → Bool) (qc : QueryConfig) : Option ConfigError :=
  match qc.sqlStatement with
  | none => none
  | some stmt => if sqlOk stmt then none else some (.sqlParseError stmt)

/-- Check the where-clause field against the schema, then the SQL. -/
def validateField (src : DataSource) (sqlOk : String → Bool)
    (qc : QueryConfig) : Option ConfigError :=
  match qc.whereField with
  | none => validateSql sqlOk qc
  | some f =>
    if f ∈ src.fieldNames then validateSql sqlOk qc
    else some (.unknownField f)

/-- Modelled from the spec (sections 4.5 and 7): resolve the layer, the
where-clause field and the SQL statement, in that order, before any node
is processed. -/
def validateConfig (src : DataSource) (sqlOk : String → Bool)
    (qc : QueryConfig) : Option ConfigError :=
  match qc.layer with
  | none => validateField src sqlOk qc
  | some nm =>
    if nm ∈ src.layerNames then validateField src sqlOk qc
    else some (.unknownLayer nm)

/-- Modelled from the spec (sections 4.5 and 7): the whole grid operation:
a configuration error aborts with a descriptive failure and no output;
otherwise the full raster is produced. -/
noncomputable def runGrid (src : DataSource) (sqlOk : String → Bool)
    (qc : QueryConfig) (alg : GridAlg) (sp : SearchParams)
    (pts : List GPoint) (xmin ymin xmax ymax : ℚ) (w h : ℕ) :
    Except ConfigError (List (List ℝ)) :=
  match validateConfig src sqlOk qc with
  | some e => .error e
  | none => .ok (gridRaster alg sp pts xmin ymin xmax ymax w h)

/-! Concrete inputs of the tests the claims cite. -/

/-- The rotated-ellipse layout: A = (2,0,10), B = (0,2,100), C = (0,0,1)
around a single node at the origin. -/
def ptsRot : List GPoint := [⟨2, 0, 10⟩, ⟨0, 2, 100⟩, ⟨0, 0, 1⟩]

/-- radius1=3, radius2=1, angle=0 (cos 1, sin 0), no count bounds. -/
def spRot0 : SearchParams := ⟨some 3, some 1, 1, 0, 0, 0, 0, 0⟩

/-- radius1=3, radius2=1, angle=90 (cos 0, sin 1), no count bounds. -/
def spRot90 : SearchParams := ⟨some 3, some 1, 0, 1, 0, 0, 0, 0⟩

/-- The per-quadrant rotated-ellipse layout: A = (2,0,10), B = (0,1.5,100),
D = (0,2.5,300), C = (0,0,50). -/
def ptsPQ : List GPoint := [⟨2, 0, 10⟩, ⟨0, 3/2, 100⟩, ⟨0, 5/2, 300⟩, ⟨0, 0, 50⟩]

/-- radius1=3, radius2=1, angle=0, max_points_per_quadrant=10. -/
def spPQ0 : SearchParams := ⟨some 3, some 1, 1, 0, 0, 0, 0, 10⟩

/-- radius1=3, radius2=1, angle=90, max_points_per_quadrant=10. -/
def spPQ90 : SearchParams := ⟨some 3, some 1, 0, 1, 0, 0, 0, 10⟩

/-- Four symmetric points of value 10 at the corners (±0.5, ±0.5) and one
outlier (1, 0) of value 100000000, around a single node at the origin. -/
def pts5 : List GPoint :=
  [⟨1/2, 1/2, 10⟩, ⟨-1/2, 1/2, 10⟩, ⟨-1/2, -1/2, 10⟩, ⟨1/2, -1/2, 10⟩,
   ⟨1, 0, 100000000⟩]

/-- radius=2, min_points=4, max_points=10, min_points_per_quadrant=1,
max_points_per_quadrant=2 (the invdist all-params test). -/
def spC4 : SearchParams := ⟨some 2, some 2, 1, 0, 4, 10, 1, 2⟩

/-- radius=2, min_points_per_quadrant=1, max_points=0,
max_points_per_quadrant=1 (the ignore-extra-points tests). -/
def spC5 : SearchParams := ⟨some 2, some 2, 1, 0, 0, 0, 1, 1⟩

/-! Helper lemmas on the concrete selections and the driver. -/

theorem selRot0_eq : selectCandidates spRot0 ptsRot 0 0 =
    [⟨0, 4, 10⟩, ⟨0, 0, 1⟩] := by
  norm_num [selectCandidates, spRot0, ptsRot, trimGlobal, trimPerQuadrant,
    quadTake, sortBySq, insertBySq, inEllipse, localOffset, mkCand,
    sqDistTo, quadrantOf, List.filter]

theorem selRot90_eq : selectCandidates spRot90 ptsRot 0 0 =
    [⟨0, 4, 100⟩, ⟨0, 0, 1⟩] := by
  norm_num [selectCandidates, spRot90, ptsRot, trimGlobal, trimPerQuadrant,
    quadTake, sortBySq, insertBySq, inEllipse, localOffset, mkCand,
    sqDistTo, quadrantOf, List.filter]

theorem gridNodeValue_eq_agg (alg : GridAlg) (sp : SearchParams)
    (pts : List GPoint) (qx qy : ℚ) (l : List Cand)
    (hsel : selectCandidates sp pts qx qy = l) (hne : l.isEmpty = false)
    (hsuf : sufficient sp l = true) :
    gridNodeValue alg sp pts qx qy = applyAgg alg l := by
  unfold gridNodeValue
  rw [hsel, hne, hsuf]
  simp

theorem gridNodeValue_zero_of_empty (alg : GridAlg) (sp : SearchParams)
    (pts : List GPoint) (qx qy : ℚ)
    (hsel : selectCandidates sp pts qx qy = []) :
    gridNodeValue alg sp pts qx qy = 0 := by
  unfold gridNodeValue
  rw [hsel]
  simp

theorem gridNodeValue_zero_of_insufficient (alg : GridAlg)
    (sp : SearchParams) (pts : List GPoint) (qx qy : ℚ)
    (hsuf : sufficient sp (selectCandidates sp pts qx qy) = false) :
    gridNodeValue alg sp pts qx qy = 0 := by
  unfold gridNodeValue
  rw [hsuf]
  simp

theorem sqrt_four : Real.sqrt 4 = 2 := by
  rw [show (4 : ℝ) = 2 ^ 2 by norm_num, Real.sqrt_sq (by norm_num : (0:ℝ) ≤ 2)]

/-- C1 counterexample: for the count aggregator the swapped points' values
differ (10 versus 100), yet the aggregated outputs at angle=0 and angle=90
are equal (both 2), so the outputs do not differ for every aggregator
whenever the swapped values differ. -/
theorem claim1_count_equal_outputs_counterexample :
    (10 : ℚ) ≠ 100 ∧
    gridNodeValue .count spRot0 ptsRot 0 0 =
      gridNodeValue .count spRot90 ptsRot 0 0 := by
  refine ⟨by norm_num, ?_⟩
  rw [gridNodeValue_eq_agg .count spRot0 ptsRot 0 0 _ selRot0_eq rfl rfl,
    gridNodeValue_eq_agg .count spRot90 ptsRot 0 0 _ selRot90_eq rfl rfl]
  norm_num [applyAgg]

/-- C1 (amended): gridding the single node at the origin over (2,0,10),
(0,2,100), (0,0,1) with radius1=3, radius2=1 selects exactly the on-axis
point (2,0,10) plus the center point at angle=0 and exactly (0,2,100) plus
the center point at angle=90, independently of the aggregator; the moving
average, maximum and range outputs differ between the two angles, while
minimum, count and average-distance yield equal outputs (1, 2 and 1
respectively) even though the swapped values 10 and 100 differ. -/
theorem claim1_rotated_ellipse_swaps_candidates :
    selectCandidates spRot0 ptsRot 0 0 = [⟨0, 4, 10⟩, ⟨0, 0, 1⟩] ∧
    selectCandidates spRot90 ptsRot 0 0 = [⟨0, 4, 100⟩, ⟨0, 0, 1⟩] ∧
    gridNodeValue .average spRot0 ptsRot 0 0 = 11/2 ∧
    gridNodeValue .average spRot90 ptsRot 0 0 = 101/2 ∧
    gridNodeValue .maximum spRot0 ptsRot 0 0 = 10 ∧
    gridNodeValue .maximum spRot90 ptsRot 0 0 = 100 ∧
    gridNodeValue .range spRot0 ptsRot 0 0 = 9 ∧
    gridNodeValue .range spRot90 ptsRot 0 0 = 99 ∧
    gridNodeValue .minimum spRot0 ptsRot 0 0 = 1 ∧
    gridNodeValue .minimum spRot90 ptsRot 0 0 = 1 ∧
    gridNodeValue .count spRot0 ptsRot 0 0 = 2 ∧
    gridNodeValue .count spRot90 ptsRot 0 0 = 2 ∧
    gridNodeValue .averageDistance spRot0 ptsRot 0 0 = 1 ∧
    gridNodeValue .averageDistance spRot90 ptsRot 0 0 = 1 ∧
    gridNodeValue .average spRot0 ptsRot 0 0 ≠
      gridNodeValue .average spRot90 ptsRot 0 0 ∧
    gridNodeValue .maximum spRot0 ptsRot 0 0 ≠
      gridNodeValue .maximum spRot90 ptsRot 0 0 ∧
    gridNodeValue .range spRot0 ptsRot 0 0 ≠
      gridNodeValue .range spRot90 ptsRot 0 0 := by
  have h0 := fun alg => gridNodeValue_eq_agg alg spRot0 ptsRot 0 0 _ selRot0_eq rfl rfl
  have h90 := fun alg => gridNodeValue_eq_agg alg spRot90 ptsRot 0 0 _ selRot90_eq rfl rfl
  refine ⟨selRot0_eq, selRot90_eq, ?_, ?_, ?_, ?_, ?_, ?_, ?_, ?_, ?_, ?_, ?_, ?_, ?_, ?_, ?_⟩ <;>
    simp only [h0, h90] <;>
    norm_num [applyAgg, candMin, candMax, min_def, max_def, sqrt_four]

theorem selPQ0_eq : selectCandidates spPQ0 ptsPQ 0 0 =
    [⟨0, 0, 50⟩, ⟨0, 4, 10⟩] := by
  norm_num [selectCandidates, spPQ0, ptsPQ, trimGlobal, trimPerQuadrant,
    quadTake, sortBySq, insertBySq, inEllipse, localOffset, mkCand,
    sqDistTo, quadrantOf, List.filter]

theorem selPQ90_eq : selectCandidates spPQ90 ptsPQ 0 0 =
    [⟨0, 0, 50⟩, ⟨0, 9/4, 100⟩, ⟨0, 25/4, 300⟩] := by
  norm_num [selectCandidates, spPQ90, ptsPQ, trimGlobal, trimPerQuadrant,
    quadTake, sortBySq, insertBySq, inEllipse, localOffset, mkCand,
    sqDistTo, quadrantOf, List.filter]

/-- C2: with per-quadrant bounds set (max_points_per_quadrant=10, the
per-quadrant/quadtree code path) and a rotated ellipse, inclusion and
quadrant classification happen in the ellipse's local frame: at angle=0
the node aggregates over {(2,0,10), (0,0,50)} and the moving average is
30, at angle=90 over {(0,1.5,100), (0,2.5,300), (0,0,50)} and the moving
average is 150. -/
theorem claim2_rotated_per_quadrant_local_frame :
    selectCandidates spPQ0 ptsPQ 0 0 = [⟨0, 0, 50⟩, ⟨0, 4, 10⟩] ∧
    selectCandidates spPQ90 ptsPQ 0 0 =
      [⟨0, 0, 50⟩, ⟨0, 9/4, 100⟩, ⟨0, 25/4, 300⟩] ∧
    gridNodeValue .average spPQ0 ptsPQ 0 0 = 30 ∧
    gridNodeValue .average spPQ90 ptsPQ 0 0 = 150 ∧
    gridNodeValue .count spPQ0 ptsPQ 0 0 = 2 ∧
    gridNodeValue .count spPQ90 ptsPQ 0 0 = 3 := by
  have h0 := fun alg => gridNodeValue_eq_agg alg spPQ0 ptsPQ 0 0 _ selPQ0_eq rfl rfl
  have h90 := fun alg => gridNodeValue_eq_agg alg spPQ90 ptsPQ 0 0 _ selPQ90_eq rfl rfl
  refine ⟨selPQ0_eq, selPQ90_eq, ?_, ?_, ?_, ?_⟩ <;>
    simp only [h0, h90] <;>
    norm_num [applyAgg]

theorem selC4_eq : selectCandidates spC4 pts5 0 0 =
    [⟨0, 1/2, 10⟩, ⟨1, 1/2, 10⟩, ⟨2, 1/2, 10⟩, ⟨3, 1/2, 10⟩,
     ⟨0, 1, 100000000⟩] := by
  norm_num [selectCandidates, spC4, pts5, trimGlobal, trimPerQuadrant,
    quadTake, sortBySq, insertBySq, inEllipse, localOffset, mkCand,
    sqDistTo, quadrantOf, List.filter]

theorem invdist_pipeline_spC4 (p s : ℝ) :
    gridNodeValue (.invdist p s) spC4 pts5 0 0 =
      (4 * 10 / Real.sqrt (1/2 + s) ^ p + 100000000 / Real.sqrt (1 + s) ^ p) /
      (4 / Real.sqrt (1/2 + s) ^ p + 1 / Real.sqrt (1 + s) ^ p) := by
  rw [gridNodeValue_eq_agg (.invdist p s) spC4 pts5 0 0 _ selC4_eq rfl rfl]
  show aggInvdist p s _ = _
  unfold aggInvdist
  rw [show zeroDistZ [(⟨0, 1/2, 10⟩ : Cand), ⟨1, 1/2, 10⟩, ⟨2, 1/2, 10⟩,
      ⟨3, 1/2, 10⟩, ⟨0, 1, 100000000⟩] = none from by norm_num [zeroDistZ]]
  simp only [List.map_cons, List.map_nil, List.sum_cons, List.sum_nil]
  push_cast
  congr 1 <;> ring

/-- C4: the inverse-distance aggregator computes, through the whole
pipeline on the four symmetric points at squared distance 1/2 (value 10)
and the outlier at distance 1 (value 100000000), exactly
`(4*v1/d1^p + v2/d2^p) / (4/d1^p + 1/d2^p)` for every power p and
smoothing s, the smoothing entering the distance term as
`sqrt(dist^2 + smoothing)`; at power=1.5 and smoothing=0 this is the
closed form of the claim with d1 = sqrt(1/2) and d2 = 1 (the model uses
exact real arithmetic, so the claimed float32 rounding tolerance is not
needed). -/
theorem claim4_invdist_weighted_formula :
    (∀ p s : ℝ, gridNodeValue (.invdist p s) spC4 pts5 0 0 =
      (4 * 10 / Real.sqrt (1/2 + s) ^ p + 100000000 / Real.sqrt (1 + s) ^ p) /
      (4 / Real.sqrt (1/2 + s) ^ p + 1 / Real.sqrt (1 + s) ^ p)) ∧
    gridNodeValue (.invdist ((3:ℝ)/2) 0) spC4 pts5 0 0 =
      (4 * 10 / Real.sqrt (1/2) ^ ((3:ℝ)/2) +
        100000000 / Real.sqrt 1 ^ ((3:ℝ)/2)) /
      (4 / Real.sqrt (1/2) ^ ((3:ℝ)/2) + 1 / Real.sqrt 1 ^ ((3:ℝ)/2)) := by
  refine ⟨invdist_pipeline_spC4, ?_⟩
  rw [invdist_pipeline_spC4 ((3:ℝ)/2) 0]
  norm_num

theorem selC5_eq : selectCandidates spC5 pts5 0 0 =
    [⟨0, 1/2, 10⟩, ⟨1, 1/2, 10⟩, ⟨2, 1/2, 10⟩, ⟨3, 1/2, 10⟩] := by
  norm_num [selectCandidates, spC5, pts5, trimGlobal, trimPerQuadrant,
    quadTake, sortBySq, insertBySq, inEllipse, localOffset, mkCand,
    sqDistTo, quadrantOf, List.filter]

/-- C5: with max_points_per_quadrant=1 and the five in-ellipse points
(one corner per quadrant at squared distance 1/2 plus the outlier sharing
quadrant 0 at squared distance 1), trimming keeps exactly the nearest
point of each quadrant, so the outlier of value 100000000 is excluded and
the moving average over the four remaining points of value 10 is 10. -/
theorem claim5_per_quadrant_trim_keeps_nearest :
    selectCandidates spC5 pts5 0 0 =
      [⟨0, 1/2, 10⟩, ⟨1, 1/2, 10⟩, ⟨2, 1/2, 10⟩, ⟨3, 1/2, 10⟩] ∧
    gridNodeValue .average spC5 pts5 0 0 = 10 := by
  refine ⟨selC5_eq, ?_⟩
  rw [gridNodeValue_eq_agg .average spC5 pts5 0 0 _ selC5_eq rfl rfl]
  norm_num [applyAgg]

theorem sqrt_half_rpow_two : Real.sqrt (1/2 : ℝ) ^ (2:ℝ) = 1/2 := by
  rw [Real.rpow_two, Real.sq_sqrt (by norm_num : (0:ℝ) ≤ 1/2)]

/-- C10: max_points=0 means no global point-count limit rather than "at
most zero candidates": with the ignore-extra-points configuration
(radius=2, min_points_per_quadrant=1, max_points=0,
max_points_per_quadrant=1) the node still aggregates the four surviving
candidates, and inverse-distance weighting with the default power 2
produces the data value 10 rather than the nodata sentinel 0. -/
theorem claim10_max_points_zero_means_unlimited :
    selectCandidates spC5 pts5 0 0 ≠ [] ∧
    gridNodeValue (.invdist 2 0) spC5 pts5 0 0 = 10 ∧
    gridNodeValue (.invdist 2 0) spC5 pts5 0 0 ≠ 0 := by
  have hv : gridNodeValue (.invdist 2 0) spC5 pts5 0 0 = 10 := by
    rw [gridNodeValue_eq_agg (.invdist 2 0) spC5 pts5 0 0 _ selC5_eq rfl rfl]
    show aggInvdist 2 0 _ = _
    unfold aggInvdist
    rw [show zeroDistZ [(⟨0, 1/2, 10⟩ : Cand), ⟨1, 1/2, 10⟩, ⟨2, 1/2, 10⟩,
        ⟨3, 1/2, 10⟩] = none from by norm_num [zeroDistZ]]
    simp only [List.map_cons, List.map_nil, List.sum_cons, List.sum_nil]
    push_cast
    norm_num [sqrt_half_rpow_two]
  refine ⟨by rw [selC5_eq]; simp, hv, by rw [hv]; norm_num⟩

theorem trimPerQuadrant_nil (m : ℕ) : trimPerQuadrant m [] = [] := by
  unfold trimPerQuadrant
  split
  · rfl
  · simp [quadTake, sortBySq]

theorem trimGlobal_nil (m : ℕ) : trimGlobal m [] = [] := by
  unfold trimGlobal
  split
  · rfl
  · simp [sortBySq]

theorem rotated_sq_norm (dx dy c s : ℚ) (hcs : c ^ 2 + s ^ 2 = 1) :
    (dx * c + dy * s) ^ 2 + (-dx * s + dy * c) ^ 2 = dx ^ 2 + dy ^ 2 := by
  linear_combination (dx ^ 2 + dy ^ 2) * hcs

theorem inEllipse_iff_scaled (sp : SearchParams) (qx qy : ℚ) (p : GPoint)
    (r1 r2 : ℚ) (h1 : sp.radius1 = some r1) (h2 : sp.radius2 = some r2)
    (hr1 : 0 < r1) (hr2 : 0 < r2) :
    inEllipse sp qx qy p = true ↔
      ((localOffset sp qx qy p).1 / r1) ^ 2 +
        ((localOffset sp qx qy p).2 / r2) ^ 2 ≤ 1 := by
  have hpos : (0 : ℚ) < r1 ^ 2 * r2 ^ 2 := by positivity
  simp only [inEllipse, h1, h2, Option.getD_some, decide_eq_true_eq]
  rw [div_pow, div_pow,
    div_add_div _ _ (pow_ne_zero 2 hr1.ne') (pow_ne_zero 2 hr2.ne'),
    div_le_one hpos]
  constructor <;> intro h <;> nlinarith [h]

theorem inEllipse_eq_false_of_far (sp : SearchParams) (qx qy : ℚ)
    (p : GPoint) (r : ℚ) (h1 : sp.radius1 = some r) (h2 : sp.radius2 = some r)
    (hr : 0 < r)
    (hcs : sp.cosAngle ^ 2 + sp.sinAngle ^ 2 = 1)
    (hfar : r ^ 2 < sqDistTo qx qy p) :
    inEllipse sp qx qy p = false := by
  have hr2 : 0 < r ^ 2 := pow_pos hr 2
  have hfar2 : r ^ 2 < (p.x - qx) ^ 2 + (p.y - qy) ^ 2 := hfar
  have hnorm := rotated_sq_norm (p.x - qx) (p.y - qy) sp.cosAngle sp.sinAngle hcs
  simp only [inEllipse, h1, h2, localOffset, Option.getD_some]
  rw [decide_eq_false_iff_not, not_le]
  nlinarith [hfar2, hnorm, hr2, mul_pos hr2 hr2]

theorem selectCandidates_empty_of_far (sp : SearchParams)
    (pts : List GPoint) (qx qy r : ℚ) (h1 : sp.radius1 = some r)
    (h2 : sp.radius2 = some r) (hr : 0 < r)
    (hcs : sp.cosAngle ^ 2 + sp.sinAngle ^ 2 = 1)
    (hfar : ∀ p ∈ pts, r ^ 2 < sqDistTo qx qy p) :
    selectCandidates sp pts qx qy = [] := by
  have hfil : pts.filter (fun p => inEllipse sp qx qy p) = [] := by
    rw [List.filter_eq_nil_iff]
    intro p hp
    simp [inEllipse_eq_false_of_far sp qx qy p r h1 h2 hr hcs (hfar p hp)]
  unfold selectCandidates
  rw [hfil, List.map_nil, trimPerQuadrant_nil, trimGlobal_nil]

/-- Both radii explicitly zero: identical to unset, an unbounded search. -/
def spZero : SearchParams := ⟨some 0, some 0, 1, 0, 0, 0, 0, 0⟩

theorem selZero_eq : selectCandidates spZero [⟨1, 0, 5⟩] 0 0 =
    [⟨0, 1, 5⟩] := by
  norm_num [selectCandidates, spZero, trimGlobal, trimPerQuadrant,
    quadTake, sortBySq, insertBySq, inEllipse, localOffset, mkCand,
    sqDistTo, quadrantOf, List.filter]

/-- C3 counterexample: an explicitly zero radius is smaller than the
(positive) distance to the nearest point, yet the node does not yield the
nodata sentinel: the count aggregator returns 1, because a zero radius
means an unbounded search, so the claim's "a search radius smaller than
the distance to the nearest point always yields 0" fails at radius 0. -/
theorem claim3_zero_radius_counterexample :
    spZero.radius1 = some 0 ∧ spZero.radius2 = some 0 ∧
    spZero.cosAngle ^ 2 + spZero.sinAngle ^ 2 = 1 ∧
    (∀ p ∈ [(⟨1, 0, 5⟩ : GPoint)], (0 : ℚ) ^ 2 < sqDistTo 0 0 p) ∧
    gridNodeValue .count spZero [⟨1, 0, 5⟩] 0 0 = 1 ∧
    gridNodeValue .count spZero [⟨1, 0, 5⟩] 0 0 ≠ 0 := by
  have hv : gridNodeValue .count spZero [⟨1, 0, 5⟩] 0 0 = 1 := by
    rw [gridNodeValue_eq_agg .count spZero [⟨1, 0, 5⟩] 0 0 _ selZero_eq rfl rfl]
    norm_num [applyAgg]
  refine ⟨rfl, rfl, by norm_num [spZero], ?_, hv, by rw [hv]; norm_num⟩
  intro p hp
  fin_cases hp
  norm_num [sqDistTo]

/-- C3 (amended): for every modelled aggregator (the model has all of
them except linear), a grid node whose trimmed candidate set is empty or
fails the global/per-quadrant minimums is not aggregated and outputs the
nodata sentinel 0; in particular a positive circular search radius
smaller than the distance to every point always yields 0, whatever the
aggregator (radius zero is excluded: it means an unbounded search and can
yield data). -/
theorem claim3_insufficient_yields_nodata :
    (∀ (alg : GridAlg) (sp : SearchParams) (pts : List GPoint) (qx qy : ℚ),
      (selectCandidates sp pts qx qy = [] ∨
        sufficient sp (selectCandidates sp pts qx qy) = false) →
      gridNodeValue alg sp pts qx qy = 0) ∧
    (∀ (alg : GridAlg) (sp : SearchParams) (pts : List GPoint) (qx qy r : ℚ),
      sp.radius1 = some r → sp.radius2 = some r → 0 < r →
      sp.cosAngle ^ 2 + sp.sinAngle ^ 2 = 1 →
      (∀ p ∈ pts, r ^ 2 < sqDistTo qx qy p) →
      gridNodeValue alg sp pts qx qy = 0) := by
  constructor
  · intro alg sp pts qx qy h
    rcases h with h | h
    · exact gridNodeValue_zero_of_empty alg sp pts qx qy h
    · exact gridNodeValue_zero_of_insufficient alg sp pts qx qy h
  · intro alg sp pts qx qy r h1 h2 hr hcs hfar
    exact gridNodeValue_zero_of_empty alg sp pts qx qy
      (selectCandidates_empty_of_far sp pts qx qy r h1 h2 hr hcs hfar)

/-- The four corner points of value 10 alone. -/
def ptsCorners : List GPoint :=
  [⟨1/2, 1/2, 10⟩, ⟨-1/2, 1/2, 10⟩, ⟨-1/2, -1/2, 10⟩, ⟨1/2, -1/2, 10⟩]

/-- radius=0.7 with min_points_per_quadrant=1: the insufficient-radius
configuration of the tests (0.7 < sqrt(2)/2 · 2, i.e. 0.49 < 0.5). -/
def spIns : SearchParams := ⟨some (7/10), some (7/10), 1, 0, 0, 0, 1, 0⟩

/-- radius=0.5 around the origin with a single point at distance 1. -/
def spHalf : SearchParams := ⟨some (1/2), some (1/2), 1, 0, 0, 0, 0, 0⟩

theorem claim3_insufficient_yields_nodata_witness :
    gridNodeValue .count spHalf [⟨1, 0, 5⟩] 0 0 = 0 ∧
    gridNodeValue .average spIns ptsCorners 0 0 = 0 := by
  constructor
  · exact claim3_insufficient_yields_nodata.1 .count spHalf [⟨1, 0, 5⟩] 0 0
      (Or.inl (by norm_num [selectCandidates, spHalf, trimGlobal,
        trimPerQuadrant, quadTake, sortBySq, insertBySq, inEllipse,
        localOffset, mkCand, sqDistTo, quadrantOf, List.filter]))
  · exact claim3_insufficient_yields_nodata.2 .average spIns ptsCorners 0 0
      (7/10) rfl rfl (by norm_num) (by norm_num [spIns])
      (by intro p hp; fin_cases hp <;> norm_num [sqDistTo])

/-- C6 counterexample: with radius1=0.0 and radius2=0.0 given explicitly
in the configuration, the search neighborhood does match points — the
point (1,0,5) at distance 1 from the node is selected — so an explicit
zero radius does not produce "no matches"; it is an unbounded search, as
the nearest-neighbor checksum test requires. -/
theorem claim6_explicit_zero_matches_counterexample :
    spZero.radius1 = some 0 ∧ spZero.radius2 = some 0 ∧
    selectCandidates spZero [⟨1, 0, 5⟩] 0 0 = [⟨0, 1, 5⟩] ∧
    selectCandidates spZero [⟨1, 0, 5⟩] 0 0 ≠ [] := by
  refine ⟨rfl, rfl, selZero_eq, ?_⟩
  rw [selZero_eq]
  simp

/-- C6 (amended): a radius of zero for either axis — also the default a
missing radius parses to — makes the search unbounded: writing
radius1=0.0 and radius2=0.0 explicitly behaves identically to leaving
both unset, and every point becomes a candidate (before count trimming).
There is no unset-versus-zero distinction in the configuration surface. -/
theorem claim6_zero_radius_unbounded :
    ∀ (sp : SearchParams) (pts : List GPoint) (qx qy : ℚ),
      sp.radius1.getD 0 = 0 → sp.radius2.getD 0 = 0 →
      sp.maxPoints = 0 → sp.maxPointsPerQuadrant = 0 →
      selectCandidates sp pts qx qy = pts.map (mkCand sp qx qy) := by
  intro sp pts qx qy h1 h2 h3 h4
  have hfil : pts.filter (fun p => inEllipse sp qx qy p) = pts := by
    rw [List.filter_eq_self]
    intro p _
    norm_num [inEllipse, h1, h2]
  unfold selectCandidates trimGlobal trimPerQuadrant
  rw [hfil, h3, h4]
  simp

/-- Both radii left unset: the default, unbounded search configuration. -/
def spUnb : SearchParams := ⟨none, none, 1, 0, 0, 0, 0, 0⟩

theorem claim6_zero_radius_unbounded_witness :
    selectCandidates spUnb [⟨1000, 0, 7⟩] 0 0 =
      List.map (mkCand spUnb 0 0) [⟨1000, 0, 7⟩] ∧
    selectCandidates spZero [⟨1000, 0, 7⟩] 0 0 =
      List.map (mkCand spZero 0 0) [⟨1000, 0, 7⟩] :=
  ⟨claim6_zero_radius_unbounded spUnb [⟨1000, 0, 7⟩] 0 0 rfl rfl rfl rfl,
   claim6_zero_radius_unbounded spZero [⟨1000, 0, 7⟩] 0 0 rfl rfl rfl rfl⟩

/-- C7: the point source adapter silently drops a record whose value field
is unset or whose value is non-finite; the adapted point sequence, and
hence every grid node's output, is identical to what it would be had the
dropped record never been present. -/
theorem claim7_adapter_drops_bad_records :
    ∀ (l1 l2 : List SourceRecord) (r : SourceRecord),
      recordPoint r = none →
      adaptPoints (l1 ++ r :: l2) = adaptPoints (l1 ++ l2) ∧
      ∀ (alg : GridAlg) (sp : SearchParams) (qx qy : ℚ),
        gridNodeValue alg sp (adaptPoints (l1 ++ r :: l2)) qx qy =
          gridNodeValue alg sp (adaptPoints (l1 ++ l2)) qx qy := by
  intro l1 l2 r h
  have had : adaptPoints (l1 ++ r :: l2) = adaptPoints (l1 ++ l2) := by
    simp [adaptPoints, List.filterMap_append, List.filterMap_cons, h]
  exact ⟨had, fun alg sp qx qy => by rw [had]⟩

/-- The four corner records of value 10 of the skip-null/skip-nan tests. -/
def recCorners : List SourceRecord :=
  [⟨0, 0, some 10, true⟩, ⟨1, 0, some 10, true⟩, ⟨0, 1, some 10, true⟩,
   ⟨1, 1, some 10, true⟩]

theorem claim7_adapter_drops_bad_records_witness :
    adaptPoints (recCorners ++ (⟨1/2, 1/2, none, true⟩ : SourceRecord) :: []) =
      adaptPoints (recCorners ++ []) ∧
    adaptPoints (recCorners ++ (⟨1/2, 1/2, some 5, false⟩ : SourceRecord) :: []) =
      adaptPoints (recCorners ++ []) ∧
    gridNodeValue .average spUnb
        (adaptPoints (recCorners ++ (⟨1/2, 1/2, none, true⟩ : SourceRecord) :: [])) 0 0 =
      gridNodeValue .average spUnb (adaptPoints (recCorners ++ [])) 0 0 :=
  ⟨(claim7_adapter_drops_bad_records recCorners [] ⟨1/2, 1/2, none, true⟩ rfl).1,
   (claim7_adapter_drops_bad_records recCorners [] ⟨1/2, 1/2, some 5, false⟩ rfl).1,
   (claim7_adapter_drops_bad_records recCorners [] ⟨1/2, 1/2, none, true⟩ rfl).2 .average spUnb 0 0⟩

/-- C8: an unknown layer name, an unknown where-clause field, or an
unparseable SQL statement makes the whole grid operation abort with a
descriptive error naming the offending value, before any node is
processed and with no raster produced. -/
theorem claim8_config_errors_fail_fast :
    ∀ (src : DataSource) (sqlOk : String → Bool) (qc : QueryConfig)
      (alg : GridAlg) (sp : SearchParams) (pts : List GPoint)
      (xmin ymin xmax ymax : ℚ) (w h : ℕ),
      (∀ nm, qc.layer = some nm → nm ∉ src.layerNames →
        runGrid src sqlOk qc alg sp pts xmin ymin xmax ymax w h =
          .error (.unknownLayer nm)) ∧
      (∀ f, qc.layer = none → qc.whereField = some f → f ∉ src.fieldNames →
        runGrid src sqlOk qc alg sp pts xmin ymin xmax ymax w h =
          .error (.unknownField f)) ∧
      (∀ stmt, qc.layer = none → qc.whereField = none →
        qc.sqlStatement = some stmt → sqlOk stmt = false →
        runGrid src sqlOk qc alg sp pts xmin ymin xmax ymax w h =
          .error (.sqlParseError stmt)) := by
  intro src sqlOk qc alg sp pts xmin ymin xmax ymax w h
  refine ⟨?_, ?_, ?_⟩
  · intro nm hl hmem
    simp [runGrid, validateConfig, hl, hmem]
  · intro f hl hf hmem
    simp [runGrid, validateConfig, validateField, hl, hf, hmem]
  · intro stmt hl hf hs hparse
    simp [runGrid, validateConfig, validateField, validateSql, hl, hf, hs,
      hparse]

/-- The schema of the error-conditions test: one layer, one field. -/
def srcW : DataSource := ⟨["test"], ["val"]⟩

/-- Layer selection naming a layer that does not exist. -/
def qcLayer : QueryConfig := ⟨some "invalid", none, none⟩

/-- Where clause referencing a field that does not exist. -/
def qcField : QueryConfig := ⟨none, some "invalid", none⟩

/-- An SQL statement the parser rejects. -/
def qcSql : QueryConfig := ⟨none, none, some "invalid"⟩

theorem claim8_config_errors_fail_fast_witness :
    runGrid srcW (fun _ => false) qcLayer .count spUnb [] 0 0 1 1 1 1 =
      .error (.unknownLayer "invalid") ∧
    runGrid srcW (fun _ => false) qcField .count spUnb [] 0 0 1 1 1 1 =
      .error (.unknownField "invalid") ∧
    runGrid srcW (fun _ => false) qcSql .count spUnb [] 0 0 1 1 1 1 =
      .error (.sqlParseError "invalid") :=
  ⟨(claim8_config_errors_fail_fast srcW (fun _ => false) qcLayer .count spUnb
      [] 0 0 1 1 1 1).1 "invalid" rfl (by simp [srcW]),
   (claim8_config_errors_fail_fast srcW (fun _ => false) qcField .count spUnb
      [] 0 0 1 1 1 1).2.1 "invalid" rfl rfl (by simp [srcW]),
   (claim8_config_errors_fail_fast srcW (fun _ => false) qcSql .count spUnb
      [] 0 0 1 1 1 1).2.2 "invalid" rfl rfl rfl rfl⟩

/-- C9: the grid driver is a pure function of the configuration and the
point set, so re-running the same configuration yields an identical
raster, and the entry at column i of row j is exactly the node value at
that node's own world coordinate: each node depends only on the fixed
point set and its own coordinates. -/
theorem claim9_deterministic_per_node :
    ∀ (alg : GridAlg) (sp : SearchParams) (pts : List GPoint)
      (xmin ymin xmax ymax : ℚ) (w h i j : ℕ), i < w → j < h →
      gridRaster alg sp pts xmin ymin xmax ymax w h =
        gridRaster alg sp pts xmin ymin xmax ymax w h ∧
      ((gridRaster alg sp pts xmin ymin xmax ymax w h).getD j []).getD i 0 =
        gridNodeValue alg sp pts (nodeX xmin xmax w i) (nodeY ymin ymax h j) := by
  intro alg sp pts xmin ymin xmax ymax w h i j hi hj
  refine ⟨rfl, ?_⟩
  simp [gridRaster, List.getD, List.getElem?_map, List.getElem?_range, hi, hj]

theorem claim9_deterministic_per_node_witness :
    ((gridRaster .count spUnb [⟨1, 0, 5⟩] (-1/2) (-1/2) (1/2) (1/2) 1 1).getD
        0 []).getD 0 0 =
      gridNodeValue .count spUnb [⟨1, 0, 5⟩] (nodeX (-1/2) (1/2) 1 0)
        (nodeY (-1/2) (1/2) 1 0) :=
  (claim9_deterministic_per_node .count spUnb [⟨1, 0, 5⟩] (-1/2) (-1/2) (1/2)
    (1/2) 1 1 0 0 (by decide) (by decide)).2

end GdalGrid
